import Mathlib

/-!
Verification of the shared formatting layer and the three detector modules
(`lua`, `crystal`, `shell`) of this repository.

The repository's `src/` tree contains only the three detector modules
(`src/src/modules/lua.rs`, `crystal.rs`, `shell.rs`).  The shared core they
invoke — the template parser / segment resolver (`StringFormatter`), the style
resolver, and the scan-criteria matcher (`try_begin_scan`) — is not part of
`src/`, so those components are modelled from the specification (`spec.md`
§3, §4.1–§4.4); each such definition carries a doc comment starting with
`Modelled from the spec:`.  Everything taken from the Rust sources in `src/`
cites its file and lines.
-/

namespace Starship

/-! ## Colors and styles (spec §3 **Style**, §4.2 Style Resolver) -/

/-- Modelled from the spec: §4.2 — a color is either one of the named terminal
colors or an `#RRGGBB` hex color. -/
inductive Color where
  | black
  | red
  | green
  | yellow
  | blue
  | purple
  | cyan
  | white
  | rgb (r g b : Nat)
deriving DecidableEq, Repr

/-- Modelled from the spec: §3 **Style** — an attribute set: foreground color,
background color, and boolean attributes. -/
structure Style where
  fg : Option Color := none
  bg : Option Color := none
  bold : Bool := false
  italic : Bool := false
  underline : Bool := false
  dimmed : Bool := false
  inverted : Bool := false
  blink : Bool := false
  hidden : Bool := false
  strikethrough : Bool := false
deriving DecidableEq, Repr

/-- Modelled from the spec: §4.2 — the named colors a style descriptor token
may denote. -/
def namedColor : String → Option Color
  | "black" => some .black
  | "red" => some .red
  | "green" => some .green
  | "yellow" => some .yellow
  | "blue" => some .blue
  | "purple" => some .purple
  | "cyan" => some .cyan
  | "white" => some .white
  | _ => none

/-- Value of a hexadecimal digit character, if it is one (working on the
code point: 48-57 are `0`-`9`, 97-102 are `a`-`f`, 65-70 are `A`-`F`). -/
def hexDigitVal (c : Char) : Option Nat :=
  let n := c.toNat
  if 48 ≤ n && n ≤ 57 then some (n - 48)
  else if 97 ≤ n && n ≤ 102 then some (n - 87)
  else if 65 ≤ n && n ≤ 70 then some (n - 55)
  else none

/-- Modelled from the spec: §4.2 — an `#RRGGBB` hex color token. -/
def parseHexColor (tok : String) : Option Color :=
  match tok.data with
  | ['#', a, b, c, d, e, f] =>
    match hexDigitVal a, hexDigitVal b, hexDigitVal c,
          hexDigitVal d, hexDigitVal e, hexDigitVal f with
    | some va, some vb, some vc, some vd, some ve, some vf =>
      some (.rgb (16 * va + vb) (16 * vc + vd) (16 * ve + vf))
    | _, _, _, _, _, _ => none
  | _ => none

/-- Modelled from the spec: §4.2 — a color token is a named color or a hex
color. -/
def colorToken (tok : String) : Option Color :=
  match namedColor tok with
  | some c => some c
  | none => parseHexColor tok

/-- Modelled from the spec: §4.2 — folding one style-descriptor token into the
accumulated style: `none` clears everything accumulated so far, attribute
keywords set their flag, `bg:`-prefixed color tokens set the background, a
bare color token sets the foreground if none is set yet (unprefixed color
tokens after the first are ignored), and unknown tokens are ignored. -/
def applyStyleToken (st : Style) (tok : String) : Style :=
  if tok = "none" then {}
  else if tok = "bold" then { st with bold := true }
  else if tok = "italic" then { st with italic := true }
  else if tok = "underline" then { st with underline := true }
  else if tok = "dimmed" then { st with dimmed := true }
  else if tok = "inverted" then { st with inverted := true }
  else if tok = "blink" then { st with blink := true }
  else if tok = "hidden" then { st with hidden := true }
  else if tok = "strikethrough" then { st with strikethrough := true }
  else
    match tok.data with
    | 'b' :: 'g' :: ':' :: bgColor =>
      match colorToken (String.mk bgColor) with
      | some c => { st with bg := some c }
      | none => st
    | _ =>
      match colorToken tok with
      | some c =>
        match st.fg with
        | none => { st with fg := some c }
        | some _ => st
      | none => st

/-- The whitespace-separated tokens of a string, as Rust's
`str::split_whitespace`: runs of whitespace separate tokens and no empty
tokens are produced.  The buffer holds the current token reversed. -/
def splitWhitespaceAux : List Char → List Char → List String
  | [], buf => if buf.isEmpty then [] else [String.mk buf.reverse]
  | c :: rest, buf =>
    if c.isWhitespace then
      if buf.isEmpty then splitWhitespaceAux rest []
      else String.mk buf.reverse :: splitWhitespaceAux rest []
    else splitWhitespaceAux rest (c :: buf)

/-- The whitespace-separated tokens of a string (no empty tokens). -/
def splitWhitespace (s : String) : List String :=
  splitWhitespaceAux s.data []

/-- Modelled from the spec: §4.2 `parseStyle` — a descriptor is
whitespace-separated tokens folded left to right into a style. -/
def parseStyle (descriptor : String) : Style :=
  (splitWhitespace descriptor).foldl applyStyleToken {}

/-- Modelled from the spec: §4.4 — composing the style inherited from an
enclosing group (`outer`) with a nearer explicit style (`inner`): the inner
style wins on a per-attribute basis and the outer style fills gaps. -/
def composeStyle (outer inner : Style) : Style where
  fg := match inner.fg with | some c => some c | none => outer.fg
  bg := match inner.bg with | some c => some c | none => outer.bg
  bold := inner.bold || outer.bold
  italic := inner.italic || outer.italic
  underline := inner.underline || outer.underline
  dimmed := inner.dimmed || outer.dimmed
  inverted := inner.inverted || outer.inverted
  blink := inner.blink || outer.blink
  hidden := inner.hidden || outer.hidden
  strikethrough := inner.strikethrough || outer.strikethrough

/-- Compose an optional inherited style with a group's own optional style. -/
def composeStyleOpt (outer : Option Style) (grpStyle : Option Style) : Option Style :=
  match outer, grpStyle with
  | none, none => none
  | some o, none => some o
  | none, some g => some g
  | some o, some g => some (composeStyle o g)

/-! ## Template tree (spec §3 **Template**) -/

/-- Modelled from the spec: §3 **Template** — a node is a literal, a variable
reference, or a parenthesized group (with an optional explicit style; the
`[text](style)` sugar of §4.3 is a literal wrapped in a styled group). -/
inductive FormatNode where
  | literal (text : String)
  | variableRef (name : String)
  | group (style : Option Style) (children : List FormatNode)

/-- Modelled from the spec: §4.3 — parse errors of the template
mini-language. -/
inductive ParseError where
  | unbalancedDelimiter
  | danglingEscape
deriving DecidableEq, Repr

/-- Characters allowed in an unbraced `$name` variable name. -/
def isIdentChar (c : Char) : Bool :=
  c.isAlphanum || c = '_'

/-- Flush the pending literal buffer (held in reverse) onto the accumulated
node list (also held in reverse). -/
def flushBuf (buf : List Char) (acc : List FormatNode) : List FormatNode :=
  if buf.isEmpty then acc else .literal (String.mk buf.reverse) :: acc

/-- Modelled from the spec: §4.3 Template Parser — recursive descent over the
character list.  `closer` is the delimiter that ends the current sequence
(`')'` inside a group, `']'` inside a bracketed literal, `none` at top level).
Escapes `\c` unescape to the literal character; a dangling `\` at the end is
`ParseError.danglingEscape`; `$name` and `$\x7bname\x7d` introduce variable
references (a `$` followed by no identifier character is the literal `$`);
`(` opens a nested group extending to its matching `)`; `[text](style)` is a
literal wrapped in a group carrying the style parsed from the descriptor,
recognized exactly when `(` directly follows the closing `]`; unmatched
delimiters are `ParseError.unbalancedDelimiter`.  The fuel argument only
bounds the recursion; `parseTemplate` supplies enough for any input. -/
def parseSeq :
    Nat → List Char → Option Char → List Char → List FormatNode →
    Except ParseError (List FormatNode × List Char)
  | 0, _, _, _, _ => .error .unbalancedDelimiter
  | fuel + 1, cs, closer, buf, acc =>
    match cs with
    | [] =>
      match closer with
      | none => .ok ((flushBuf buf acc).reverse, [])
      | some _ => .error .unbalancedDelimiter
    | '\\' :: rest =>
      match rest with
      | [] => .error .danglingEscape
      | c :: rest' => parseSeq fuel rest' closer (c :: buf) acc
    | '$' :: rest =>
      match rest with
      | '\x7b' :: rest' =>
        let name := rest'.takeWhile (fun c => c ≠ '\x7d')
        match rest'.drop name.length with
        | '\x7d' :: rest'' =>
          parseSeq fuel rest'' closer [] (.variableRef (String.mk name) :: flushBuf buf acc)
        | _ => .error .unbalancedDelimiter
      | _ =>
        let name := rest.takeWhile isIdentChar
        if name.isEmpty then
          parseSeq fuel rest closer ('$' :: buf) acc
        else
          parseSeq fuel (rest.drop name.length) closer []
            (.variableRef (String.mk name) :: flushBuf buf acc)
    | '(' :: rest =>
      match parseSeq fuel rest (some ')') [] [] with
      | .error e => .error e
      | .ok (children, rest') =>
        parseSeq fuel rest' closer [] (.group none children :: flushBuf buf acc)
    | '[' :: rest =>
      match parseSeq fuel rest (some ']') [] [] with
      | .error e => .error e
      | .ok (children, rest') =>
        match rest' with
        | '(' :: rest'' =>
          let desc := rest''.takeWhile (fun c => c ≠ ')')
          match rest''.drop desc.length with
          | ')' :: rest''' =>
            parseSeq fuel rest''' closer []
              (.group (some (parseStyle (String.mk desc))) children :: flushBuf buf acc)
          | _ => .error .unbalancedDelimiter
        | _ => parseSeq fuel rest' closer [] (.group none children :: flushBuf buf acc)
    | c :: rest =>
      if closer = some c then .ok ((flushBuf buf acc).reverse, rest)
      else if c = ')' || c = ']' then .error .unbalancedDelimiter
      else parseSeq fuel rest closer (c :: buf) acc

/-- Modelled from the spec: §4.3 `parse(formatString) -> Result<Template,
ParseError>`. -/
def parseTemplate (s : String) : Except ParseError (List FormatNode) :=
  match parseSeq (s.length + 1) s.data none [] [] with
  | .error e => .error e
  | .ok (nodes, _) => .ok nodes

/-! ## Segment resolution (spec §4.4 Segment Resolver) -/

/-- Modelled from the spec: §3 **Segment** — a pair of text and a resolved
style (`none` meaning the default, unstyled). -/
structure Segment where
  text : String
  style : Option Style
deriving DecidableEq, Repr

/-- Concatenated text of a segment sequence, in order. -/
def segmentsText (segs : List Segment) : String :=
  segs.foldl (fun acc s => acc ++ s.text) ""

/-- Modelled from the spec: §4.4 — the bundle of three ordered lookup
functions a detector supplies: meta, style, and value lookups.  (The
`context` argument of `lookupMeta`/`lookupValue` is already applied by the
detector closures, so the lookups here take only the variable name.) -/
structure Resolvers where
  lookupMeta : String → Option String
  lookupStyle : String → Option (Except String Style)
  lookupValue : String → Option (Except String String)

/-- Modelled from the spec: §9 — the three-state outcome of resolving one
variable: present (with its text, or with a style when the style lookup
claimed the name), absent, or failed with a cause. -/
inductive ResolveOutcome where
  | present (text : String)
  | presentStyle (st : Style)
  | absent
  | failed (cause : String)
deriving DecidableEq, Repr

/-- The outcome is a successfully present value (not absent, not failed). -/
def ResolveOutcome.isPresent : ResolveOutcome → Bool
  | .present _ => true
  | .presentStyle _ => true
  | .absent => false
  | .failed _ => false

/-- The outcome is the explicit "no value" outcome. -/
def ResolveOutcome.isAbsent : ResolveOutcome → Bool
  | .absent => true
  | _ => false

/-- The outcome is a resolver failure. -/
def ResolveOutcome.isFailed : ResolveOutcome → Bool
  | .failed _ => true
  | _ => false

/-- Modelled from the spec: §4.4 — resolution order per variable reference:
try the meta lookup first, then the style lookup, then the value lookup; the
first lookup that returns `Some` wins; `Some(Err e)` is a failure; `None`
from all three is absence. -/
def resolveVariable (r : Resolvers) (name : String) : ResolveOutcome :=
  match r.lookupMeta name with
  | some s => .present s
  | none =>
    match r.lookupStyle name with
    | some (.ok st) => .presentStyle st
    | some (.error e) => .failed e
    | none =>
      match r.lookupValue name with
      | some (.ok s) => .present s
      | some (.error e) => .failed e
      | none => .absent

/-- Modelled from the spec: §4.4 — the structural errors `render` may
return. -/
inductive ResolutionError where
  | unknownVariable (name : String)
  | resolverFailed (name : String) (cause : String)
deriving DecidableEq, Repr

mutual

/-- The variable names transitively referenced by a node (spec §4.4:
"every VariableRef transitively contained in the group"). -/
def collectVars : FormatNode → List String
  | .literal _ => []
  | .variableRef n => [n]
  | .group _ children => collectVarsList children

/-- The variable names transitively referenced by a node list, left to
right. -/
def collectVarsList : List FormatNode → List String
  | [] => []
  | n :: ns => collectVars n ++ collectVarsList ns

end

mutual

/-- Modelled from the spec: §4.4 — rendering one node under the style
inherited from enclosing groups.  A literal yields one segment; a variable
reference yields its resolved text (a top-level absence is
`ResolutionError.unknownVariable`; a variable claimed by the style lookup in
text position is left unspecified by the spec — §9's open question — and
contributes empty text); a group whose transitive variables contain an
absence contributes no segments at all, otherwise it renders its children
under its composed style. -/
def renderNode (r : Resolvers) (st : Option Style) :
    FormatNode → Except ResolutionError (List Segment)
  | .literal t => .ok [⟨t, st⟩]
  | .variableRef name =>
    match resolveVariable r name with
    | .present s => .ok [⟨s, st⟩]
    | .presentStyle _ => .ok [⟨"", st⟩]
    | .absent => .error (.unknownVariable name)
    | .failed e => .error (.resolverFailed name e)
  | .group gstyle children =>
    if (collectVarsList children).any (fun n => (resolveVariable r n).isAbsent) then
      .ok []
    else
      renderNodes r (composeStyleOpt st gstyle) children

/-- Modelled from the spec: §4.4 — rendering a node list left to right,
concatenating the surviving segments; the first structural error aborts. -/
def renderNodes (r : Resolvers) (st : Option Style) :
    List FormatNode → Except ResolutionError (List Segment)
  | [] => .ok []
  | n :: ns =>
    match renderNode r st n with
    | .error e => .error e
    | .ok s₁ =>
      match renderNodes r st ns with
      | .error e => .error e
      | .ok s₂ => .ok (s₁ ++ s₂)

end

/-- The first transitive variable of the template (in left-to-right order)
whose resolution fails, with its cause. -/
def firstFailure (r : Resolvers) (t : List FormatNode) : Option (String × String) :=
  (collectVarsList t).findSome? fun n =>
    match resolveVariable r n with
    | .failed e => some (n, e)
    | _ => none

/-- Modelled from the spec: §4.4 `render(template, resolvers)` — a resolver
failure anywhere in the template (even inside a group) aborts the whole
render with `ResolutionError.resolverFailed`; otherwise the template is
rendered with conditional-group omission, where a top-level absence is
`ResolutionError.unknownVariable`. -/
def render (r : Resolvers) (t : List FormatNode) :
    Except ResolutionError (List Segment) :=
  match firstFailure r t with
  | some (n, e) => .error (.resolverFailed n e)
  | none => renderNodes r none t

/-! ## Scan-criteria matching (spec §3 **ScanCriteria**, §4.1) -/

/-- Modelled from the spec: §4.1 — a directory entry is a file or a
(sub)directory. -/
inductive EntryKind where
  | file
  | directory
deriving DecidableEq, Repr

/-- Modelled from the spec: §4.1 — one immediate entry of the scanned
directory. -/
structure DirEntry where
  name : String
  kind : EntryKind
deriving DecidableEq, Repr

/-- Modelled from the spec: §3 **ScanCriteria** — sets of file names, folder
names and extensions, all defaulting to empty. -/
structure ScanCriteria where
  files : List String := []
  folders : List String := []
  extensions : List String := []

/-- The characters after the last `.` of the list, when it contains one. -/
def afterLastDot : List Char → Option (List Char)
  | [] => none
  | c :: rest =>
    match afterLastDot rest with
    | some ext => some ext
    | none => if c = '.' then some rest else none

/-- Modelled from the spec: §4.1 — the extension of an entry name: the text
after the last `.`, when the name contains one (case-sensitive). -/
def fileExtension (name : String) : Option String :=
  (afterLastDot name.data).map String.mk

/-- Modelled from the spec: §4.1 — one entry satisfies the criteria when it
is a listed file, a listed folder, or a file with a listed extension. -/
def entryMatches (c : ScanCriteria) (e : DirEntry) : Bool :=
  match e.kind with
  | .file =>
    c.files.contains e.name ||
      (match fileExtension e.name with
       | some ext => c.extensions.contains ext
       | none => false)
  | .directory => c.folders.contains e.name

/-- Modelled from the spec: §4.1 `isMatch` — matching is an OR over the
directory's immediate entries; an unreadable directory (`none`) is treated as
"no entries" and never matches. -/
def isMatch (c : ScanCriteria) (listing : Option (List DirEntry)) : Bool :=
  match listing with
  | none => false
  | some entries => entries.any (entryMatches c)

/-! ## External command execution (collaborator boundary) -/

/-- Output of an external command, as produced by `utils::exec_cmd` (the
`utils` module is outside `src/`; its result is passed in as data). -/
structure CommandOutput where
  stdout : String
  stderr : String
deriving DecidableEq, Repr

/-- Combined error of building a formatter from a format string and rendering
it (`StringFormatter::new(..).and_then(|f| .. .parse(None))`). -/
inductive FormatError where
  | parse (e : ParseError)
  | resolution (e : ResolutionError)
deriving DecidableEq, Repr

/-- Parse a format string and render it with the given resolvers, combining
the two error kinds — the `parsed` value each detector module matches on. -/
def formatAndRender (format : String) (r : Resolvers) :
    Except FormatError (List Segment) :=
  match parseTemplate format with
  | .error e => .error (.parse e)
  | .ok t =>
    match render r t with
    | .error e => .error (.resolution e)
    | .ok segs => .ok segs

/-! ## The `lua` module (src/src/modules/lua.rs) -/

/-- Configuration of the lua module (`crate::configs::lua::LuaConfig`; the
configs module is outside `src/`, so the fields the detector reads are kept
abstract). -/
structure LuaConfig where
  format : String
  symbol : String
  style : Style
  lua_binary : String

/-- Embeds `get_lua_version` (src/src/modules/lua.rs lines 61-72): on a
successful execution, the command's stdout if it is non-empty and its stderr
otherwise; `none` exactly when the execution itself failed.  The external
`utils::exec_cmd(lua_binary, ["-v"])` result is the `execResult`
parameter. -/
def get_lua_version (execResult : Option CommandOutput) : Option String :=
  match execResult with
  | some output =>
    if output.stdout.isEmpty then some output.stderr else some output.stdout
  | none => none

/-- A character matched by the regex class `[\d\.]`. -/
def isDigitOrDot (c : Char) : Bool :=
  c.isDigit || c = '.'

/-- A character matched by the regex class `[a-z\-]`. -/
def isLowerOrDash (c : Char) : Bool :=
  c.isLower || c = '-'

/-- A character matched by the regex class `[1-9]`. -/
def isNonZeroDigit (c : Char) : Bool :=
  '1' ≤ c && c ≤ '9'

/-- The `version` capture of `LUA_VERSION_PATERN` =
`(?P<version>[\d\.]+[a-z\-]*[1-9]*)[^\s]*` matched at the head of `cs`:
greedy maximal runs of the three character classes (the classes of adjacent
pieces are disjoint, so greedy maximal-munch is exact); the `[^\s]*` tail
lies outside the capture group. -/
def luaVersionAt (cs : List Char) : Option String :=
  let p1 := cs.takeWhile isDigitOrDot
  if p1.isEmpty then none
  else
    let rest1 := cs.drop p1.length
    let p2 := rest1.takeWhile isLowerOrDash
    let rest2 := rest1.drop p2.length
    let p3 := rest2.takeWhile isNonZeroDigit
    some (String.mk (p1 ++ p2 ++ p3))

/-- The leftmost match of the version pattern: the regex engine scans for the
first position where `[\d\.]+` can start. -/
def findLuaVersion : List Char → Option String
  | [] => none
  | c :: rest =>
    if isDigitOrDot c then luaVersionAt (c :: rest) else findLuaVersion rest

/-- Embeds `format_lua_version` (src/src/modules/lua.rs lines 74-84): the
`version` capture of the first match of `LUA_VERSION_PATERN` in the command
output, if any. -/
def format_lua_version (lua_stdout : String) : Option String :=
  findLuaVersion lua_stdout.data

/-- Embeds the three resolver closures of the lua `module` function
(src/src/modules/lua.rs lines 30-47): the meta lookup maps `symbol` to the
configured symbol, the style lookup maps `style` to the configured style, and
the value lookup maps `version` through `get_lua_version` and
`format_lua_version` (each `?` turning `None` into absence). -/
def luaResolvers (config : LuaConfig) (luaExec : Option CommandOutput) : Resolvers where
  lookupMeta := fun var =>
    match var with
    | "symbol" => some config.symbol
    | _ => none
  lookupStyle := fun var =>
    match var with
    | "style" => some (.ok config.style)
    | _ => none
  lookupValue := fun var =>
    match var with
    | "version" =>
      match get_lua_version luaExec with
      | some out =>
        match format_lua_version out with
        | some v => some (.ok v)
        | none => none
      | none => none
    | _ => none

/-- Scan criteria of the lua module (src/src/modules/lua.rs lines 17-22). -/
def luaCriteria : ScanCriteria :=
  { files := [".lua-version"], folders := ["lua"], extensions := ["lua"] }

/-- Embeds the lua `module` function (src/src/modules/lua.rs lines 16-59) as
its contributed segments: `none` when the scan criteria do not match, `none`
when formatting errors (the error is logged — a side effect outside this
embedding — and never propagated), and the rendered segments otherwise. -/
def luaModuleSegments (listing : Option (List DirEntry)) (config : LuaConfig)
    (luaExec : Option CommandOutput) : Option (List Segment) :=
  if isMatch luaCriteria listing then
    match formatAndRender config.format (luaResolvers config luaExec) with
    | .ok segments => some segments
    | .error _ => none
  else none

/-! ## The `crystal` module (src/src/modules/crystal.rs) -/

/-- Configuration of the crystal module (`crate::configs::crystal::
CrystalConfig`, outside `src/`; abstract fields). -/
structure CrystalConfig where
  format : String
  symbol : String
  style : Style

/-- Embeds `format_crystal_version` (src/src/modules/crystal.rs lines 57-65):
`crystal_version.split_whitespace().nth(1)` — the second
whitespace-separated token of the `crystal --version` output, if any. -/
def format_crystal_version (crystal_version : String) : Option String :=
  (splitWhitespace crystal_version).get? 1

/-- Embeds the resolver closures of the crystal `module` function
(src/src/modules/crystal.rs lines 26-43); the value lookup maps `version`
through `exec_cmd("crystal", ["--version"])?.stdout` and
`format_crystal_version(..).map(Ok)`. -/
def crystalResolvers (config : CrystalConfig) (crystalExec : Option CommandOutput) :
    Resolvers where
  lookupMeta := fun var =>
    match var with
    | "symbol" => some config.symbol
    | _ => none
  lookupStyle := fun var =>
    match var with
    | "style" => some (.ok config.style)
    | _ => none
  lookupValue := fun var =>
    match var with
    | "version" =>
      match crystalExec with
      | some out => (format_crystal_version out.stdout).map .ok
      | none => none
    | _ => none

/-- Scan criteria of the crystal module (src/src/modules/crystal.rs lines
13-17). -/
def crystalCriteria : ScanCriteria :=
  { files := ["shard.yml"], extensions := ["cr"] }

/-- Embeds the crystal `module` function (src/src/modules/crystal.rs lines
12-55) as its contributed segments. -/
def crystalModuleSegments (listing : Option (List DirEntry)) (config : CrystalConfig)
    (crystalExec : Option CommandOutput) : Option (List Segment) :=
  if isMatch crystalCriteria listing then
    match formatAndRender config.format (crystalResolvers config crystalExec) with
    | .ok segments => some segments
    | .error _ => none
  else none

/-! ## The `shell` module (src/src/modules/shell.rs) -/

/-- The closed enum of shells (`crate::context::Shell`, matched exhaustively
in src/src/modules/shell.rs lines 19-28). -/
inductive Shell where
  | bash
  | fish
  | zsh
  | powershell
  | ion
  | elvish
  | tcsh
  | unknown
deriving DecidableEq, Repr

/-- Configuration of the shell module (`crate::configs::shell::ShellConfig`,
outside `src/`; abstract fields). -/
structure ShellConfig where
  format : String
  bash_indicator : String
  fish_indicator : String
  zsh_indicator : String
  powershell_indicator : String
  ion_indicator : String
  elvish_indicator : String
  tcsh_indicator : String
  unknown_indicator : String
  disabled : Bool

/-- Embeds the `map_meta` closure of the shell `module` function
(src/src/modules/shell.rs lines 18-30): the name `indicator` is dispatched by
an exhaustive match over the `Shell` enum to the configured indicator of the
current shell. -/
def shellMetaLookup (config : ShellConfig) (shell : Shell) : String → Option String :=
  fun var =>
    match var with
    | "indicator" =>
      match shell with
      | .bash => some config.bash_indicator
      | .fish => some config.fish_indicator
      | .zsh => some config.zsh_indicator
      | .powershell => some config.powershell_indicator
      | .ion => some config.ion_indicator
      | .elvish => some config.elvish_indicator
      | .tcsh => some config.tcsh_indicator
      | .unknown => some config.unknown_indicator
    | _ => none

/-- Embeds the `map` closure of the shell `module` function
(src/src/modules/shell.rs lines 31-41): each per-shell indicator name maps to
its configured string. -/
def shellValueLookup (config : ShellConfig) : String → Option (Except String String) :=
  fun var =>
    match var with
    | "bash_indicator" => some (.ok config.bash_indicator)
    | "fish_indicator" => some (.ok config.fish_indicator)
    | "zsh_indicator" => some (.ok config.zsh_indicator)
    | "powershell_indicator" => some (.ok config.powershell_indicator)
    | "ion_indicator" => some (.ok config.ion_indicator)
    | "elvish_indicator" => some (.ok config.elvish_indicator)
    | "tcsh_indicator" => some (.ok config.tcsh_indicator)
    | "unknown_indicator" => some (.ok config.unknown_indicator)
    | _ => none

/-- The resolver bundle of the shell module: `map_meta` and `map` as above;
`map_style` is never called in src/src/modules/shell.rs, so the style lookup
claims no name. -/
def shellResolvers (config : ShellConfig) (shell : Shell) : Resolvers where
  lookupMeta := shellMetaLookup config shell
  lookupStyle := fun _ => none
  lookupValue := shellValueLookup config

/-- Embeds the shell `module` function (src/src/modules/shell.rs lines 6-54)
as its contributed segments: `none` when disabled, `none` on a formatting
error (logged, never propagated), and the rendered segments otherwise. -/
def shellModuleSegments (config : ShellConfig) (shell : Shell) : Option (List Segment) :=
  if config.disabled then none
  else
    match formatAndRender config.format (shellResolvers config shell) with
    | .ok segments => some segments
    | .error _ => none

/-! ## Concrete instances used by the claims -/

/-- A lua configuration with the template of the spec's §8 examples: format
`"$symbol($version )"`, symbol `"🌙 "` and the blue-bold style of
src/src/modules/lua.rs line 108 (`Color::Blue.bold()`). -/
def luaTestConfig : LuaConfig where
  format := "$symbol($version )"
  symbol := "🌙 "
  style := { fg := some .blue, bold := true }
  lua_binary := "lua"

/-- The `lua -v` banner of src/src/modules/lua.rs line 158, as the stdout of
a successful execution. -/
def luaVersionOutput : CommandOutput where
  stdout := "Lua 5.4.0  Copyright (C) 1994-2020 Lua.org, PUC-Rio"
  stderr := ""

/-- The shell configuration of `test_custom_format_conditional_indicator_match`
(src/src/modules/shell.rs lines 253-266): `bash_indicator = "B"`, format
`"($bash_indicator )"`, not disabled; the remaining indicators keep the
default values observed in the other tests of that file. -/
def bashIndicatorConfig : ShellConfig where
  format := "($bash_indicator )"
  bash_indicator := "B"
  fish_indicator := "fsh"
  zsh_indicator := "zsh"
  powershell_indicator := "psh"
  ion_indicator := "ion"
  elvish_indicator := "esh"
  tcsh_indicator := "tsh"
  unknown_indicator := ""
  disabled := false

/-- The shell configuration of
`test_custom_format_conditional_indicator_no_match` (src/src/modules/shell.rs
lines 269-281): `bash_indicator = "B"`, format `"($indicator )"`, not
disabled, queried under Fish; `fish_indicator` keeps the default `"fsh"`
observed in `test_fish_default_format` (lines 108-119). -/
def indicatorNoMatchConfig : ShellConfig where
  format := "($indicator )"
  bash_indicator := "B"
  fish_indicator := "fsh"
  zsh_indicator := "zsh"
  powershell_indicator := "psh"
  ion_indicator := "ion"
  elvish_indicator := "esh"
  tcsh_indicator := "tsh"
  unknown_indicator := ""
  disabled := false

/-- The expected module output of
`test_custom_format_conditional_indicator_no_match` (src/src/modules/shell.rs
line 270): the module contributes nothing. -/
def noMatchTestExpected : Option (List Segment) := none

/-- A lua configuration whose format string has an unmatched `(`, to exercise
the template-construction error path. -/
def luaBadFormatConfig : LuaConfig where
  format := "("
  symbol := ""
  style := {}
  lua_binary := "lua"

/-- A shell configuration whose format references a variable no lookup
claims, to exercise the rendering error path. -/
def shellBadFormatConfig : ShellConfig where
  format := "$nope"
  bash_indicator := ""
  fish_indicator := ""
  zsh_indicator := ""
  powershell_indicator := ""
  ion_indicator := ""
  elvish_indicator := ""
  tcsh_indicator := ""
  unknown_indicator := ""
  disabled := false

/-- A resolver bundle whose value lookup reports an explicit failure for
`version`, to exercise `ResolutionError.resolverFailed`. -/
def failingResolvers : Resolvers where
  lookupMeta := fun _ => none
  lookupStyle := fun _ => none
  lookupValue := fun var =>
    match var with
    | "version" => some (.error "oops")
    | _ => none

/-- The style denoted by the descriptor `"bold cyan"`. -/
def boldCyanStyle : Style := { fg := some .cyan, bold := true }

/-! ## Helper lemmas -/

theorem collectVarsList_append (a b : List FormatNode) :
    collectVarsList (a ++ b) = collectVarsList a ++ collectVarsList b := by
  induction a with
  | nil => simp [collectVarsList]
  | cons n ns ih => simp [collectVarsList, ih]

theorem findSome?_eq_none_iff {α β : Type} (f : α → Option β) (l : List α) :
    l.findSome? f = none ↔ ∀ a ∈ l, f a = none := by
  induction l with
  | nil => simp [List.findSome?]
  | cons x xs ih =>
    cases hx : f x with
    | none => simp [List.findSome?, hx, ih]
    | some b => simp [List.findSome?, hx]

theorem exists_of_findSome?_eq_some {α β : Type} {f : α → Option β} {l : List α}
    {b : β} (h : l.findSome? f = some b) : ∃ a ∈ l, f a = some b := by
  induction l with
  | nil => simp [List.findSome?] at h
  | cons x xs ih =>
    cases hx : f x with
    | none =>
      simp only [List.findSome?, hx] at h
      obtain ⟨a, ha, hfa⟩ := ih h
      exact ⟨a, List.mem_cons_of_mem x ha, hfa⟩
    | some b' =>
      simp only [List.findSome?, hx, Option.some.injEq] at h
      exact ⟨x, List.mem_cons_self x xs, by rw [hx, h]⟩

theorem renderNodes_middle_omit (r : Resolvers) (st : Option Style) (g : FormatNode)
    (hg : renderNode r st g = .ok []) (pre post : List FormatNode) :
    renderNodes r st (pre ++ g :: post) = renderNodes r st (pre ++ post) := by
  induction pre with
  | nil =>
    simp only [List.nil_append, renderNodes, hg]
    cases renderNodes r st post <;> simp
  | cons n ns ih =>
    simp only [List.cons_append, renderNodes, List.append_eq, ih]

theorem firstFailure_eq_none_of_render_ok {r : Resolvers} {t : List FormatNode}
    {segs : List Segment} (h : render r t = .ok segs) :
    firstFailure r t = none := by
  cases hf : firstFailure r t with
  | none => rfl
  | some p =>
    obtain ⟨n, e⟩ := p
    simp [render, hf] at h

theorem renderNodes_of_render_ok {r : Resolvers} {t : List FormatNode}
    {segs : List Segment} (h : render r t = .ok segs) :
    renderNodes r none t = .ok segs := by
  have hf := firstFailure_eq_none_of_render_ok h
  simpa [render, hf] using h

theorem failCheck_none_of_not_failed {r : Resolvers} {n : String}
    (h : (resolveVariable r n).isFailed = false) :
    (match resolveVariable r n with
     | .failed e => some (n, e)
     | _ => (none : Option (String × String))) = none := by
  cases houtcome : resolveVariable r n <;>
    simp_all [ResolveOutcome.isFailed]

/-! ## Claims -/

/-- C1: for every template containing a parenthesized group, if some variable
reference inside the group resolves to `None` from all three resolvers (and
none of the group's variables reports a failure) while the rest of the
template renders successfully, then `render` succeeds with the entire group —
all its literals and children at any depth — omitted and the rest rendered
unaffected; in particular, the lua detector's format `"$symbol($version )"`
with `symbol` resolving to `"🌙 "` and the `version` resolver returning
`None` yields exactly the segment `"🌙 "` and no error. -/
theorem claim_C1 :
    (∀ (r : Resolvers) (gstyle : Option Style)
       (children pre post : List FormatNode) (segs : List Segment),
       (collectVarsList children).any
           (fun n => (resolveVariable r n).isAbsent) = true →
       (collectVarsList children).all
           (fun n => !(resolveVariable r n).isFailed) = true →
       render r (pre ++ post) = .ok segs →
       render r (pre ++ FormatNode.group gstyle children :: post) = .ok segs)
    ∧ formatAndRender luaTestConfig.format (luaResolvers luaTestConfig none) =
        .ok [⟨"🌙 ", none⟩] := by
  constructor
  · intro r gstyle children pre post segs hA hF hOk
    have hf : firstFailure r (pre ++ post) = none :=
      firstFailure_eq_none_of_render_ok hOk
    have hrn : renderNodes r none (pre ++ post) = .ok segs :=
      renderNodes_of_render_ok hOk
    have hfall := (findSome?_eq_none_iff _ _).1 hf
    have hf' : firstFailure r (pre ++ FormatNode.group gstyle children :: post) = none := by
      apply (findSome?_eq_none_iff _ _).2
      intro n hn
      rw [collectVarsList_append] at hn
      have hsplit : n ∈ collectVarsList pre ∨
          n ∈ collectVarsList children ∨ n ∈ collectVarsList post := by
        rcases List.mem_append.1 hn with h | h
        · exact Or.inl h
        · simp only [collectVarsList, collectVars] at h
          rcases List.mem_append.1 h with h' | h'
          · exact Or.inr (Or.inl h')
          · exact Or.inr (Or.inr h')
      rcases hsplit with h | h | h
      · exact hfall n (by rw [collectVarsList_append]; exact List.mem_append_left _ h)
      · have := List.all_eq_true.1 hF n h
        exact failCheck_none_of_not_failed (by simpa using this)
      · exact hfall n (by rw [collectVarsList_append]; exact List.mem_append_right _ h)
    have hg : renderNode r none (FormatNode.group gstyle children) = .ok [] := by
      simp [renderNode, hA]
    calc render r (pre ++ FormatNode.group gstyle children :: post)
        = renderNodes r none (pre ++ FormatNode.group gstyle children :: post) := by
          simp [render, hf']
      _ = renderNodes r none (pre ++ post) :=
          renderNodes_middle_omit r none _ hg pre post
      _ = .ok segs := hrn
  · rfl

/-- Witness for C1: the lua scenario instantiates the general theorem — the
group `($version )` contains the absent variable `version`, no variable in it
fails, `"$symbol"` alone renders to `"🌙 "`, and the full template therefore
renders to exactly `"🌙 "`. -/
theorem claim_C1_witness :
    ((collectVarsList [FormatNode.variableRef "version", FormatNode.literal " "]).any
        (fun n => (resolveVariable (luaResolvers luaTestConfig none) n).isAbsent) = true)
    ∧ render (luaResolvers luaTestConfig none)
        ([FormatNode.variableRef "symbol"] ++
          FormatNode.group none [FormatNode.variableRef "version", FormatNode.literal " "] :: []) =
        .ok [⟨"🌙 ", none⟩] :=
  ⟨rfl,
    claim_C1.1 (luaResolvers luaTestConfig none) none
      [FormatNode.variableRef "version", FormatNode.literal " "]
      [FormatNode.variableRef "symbol"] [] [⟨"🌙 ", none⟩] rfl rfl rfl⟩

/-- C2 (amended): if every variable reference transitively contained in a
group resolves to a present value through any of the three lookups, the group
contributes its rendered child segments in left-to-right order under its
composed style; the shell module with format `"($bash_indicator )"` and
`bash_indicator = "B"` under Bash renders `"B "`.  (The claim's final clause
— that `"($indicator )"` renders the group whenever `$indicator`
meta-resolves — does not hold of the repository: see the counterexample.) -/
theorem claim_C2_amended :
    (∀ (r : Resolvers) (st gstyle : Option Style) (children : List FormatNode),
       (collectVarsList children).all
           (fun n => (resolveVariable r n).isPresent) = true →
       renderNode r st (.group gstyle children) =
         renderNodes r (composeStyleOpt st gstyle) children)
    ∧ shellModuleSegments bashIndicatorConfig .bash =
        some [⟨"B", none⟩, ⟨" ", none⟩] := by
  constructor
  · intro r st gstyle children hP
    have hA : (collectVarsList children).any
        (fun n => (resolveVariable r n).isAbsent) = false := by
      by_contra h
      rw [Bool.not_eq_false, List.any_eq_true] at h
      obtain ⟨n, hn, habs⟩ := h
      have hpres := List.all_eq_true.1 hP n hn
      cases houtcome : resolveVariable r n <;>
        simp_all [ResolveOutcome.isPresent, ResolveOutcome.isAbsent]
    simp [renderNode, hA]
  · rfl

/-- Witness for C2: the group of `"($bash_indicator )"` has all its variables
present under the Bash configuration, so it renders exactly its children. -/
theorem claim_C2_witness :
    ((collectVarsList [FormatNode.variableRef "bash_indicator", FormatNode.literal " "]).all
        (fun n => (resolveVariable (shellResolvers bashIndicatorConfig .bash) n).isPresent) = true)
    ∧ renderNode (shellResolvers bashIndicatorConfig .bash) none
        (.group none [FormatNode.variableRef "bash_indicator", FormatNode.literal " "]) =
      renderNodes (shellResolvers bashIndicatorConfig .bash) (composeStyleOpt none none)
        [FormatNode.variableRef "bash_indicator", FormatNode.literal " "] :=
  ⟨rfl,
    claim_C2_amended.1 (shellResolvers bashIndicatorConfig .bash) none none
      [FormatNode.variableRef "bash_indicator", FormatNode.literal " "] rfl⟩

/-- Counterexample for C2's final clause: under the configuration of
`test_custom_format_conditional_indicator_no_match` (src/src/modules/shell.rs
lines 269-281) the name `indicator` *does* meta-resolve for Fish (the
`map_meta` closure returns `Some` for every shell variant), so by the claim
the group of `"($indicator )"` would have to render — and under the spec's
resolver semantics it indeed renders `"fsh "` — yet the repository's test
expects the module to contribute nothing (`noMatchTestExpected = none`,
line 270).  The claim therefore contradicts the repository: a meta variable's
resolvability must not keep the group. -/
theorem claim_C2_counterexample :
    (resolveVariable (shellResolvers indicatorNoMatchConfig .fish) "indicator").isPresent = true
    ∧ shellModuleSegments indicatorNoMatchConfig .fish =
        some [⟨"fsh", none⟩, ⟨" ", none⟩]
    ∧ shellModuleSegments indicatorNoMatchConfig .fish ≠ noMatchTestExpected := by
  refine ⟨rfl, rfl, ?_⟩
  intro h
  rw [show shellModuleSegments indicatorNoMatchConfig .fish =
      some [⟨"fsh", none⟩, ⟨" ", none⟩] from rfl] at h
  simp [noMatchTestExpected] at h

/-- C3: for every template and resolver bundle, if any variable reference —
even one nested inside a group — resolves to `Some(Err e)`, then `render`
aborts with `ResolutionError.resolverFailed` naming a variable that failed,
producing no segment sequence; and only absence triggers silent group
omission — a group whose variables contain an absence yields `ok []`, never
an abort. -/
theorem claim_C3 :
    (∀ (r : Resolvers) (t : List FormatNode),
       (collectVarsList t).any (fun n => (resolveVariable r n).isFailed) = true →
       ∃ n e, render r t = .error (.resolverFailed n e)
         ∧ resolveVariable r n = .failed e)
    ∧ (∀ (r : Resolvers) (gstyle : Option Style) (children : List FormatNode),
       (collectVarsList children).any
           (fun n => (resolveVariable r n).isAbsent) = true →
       renderNode r none (.group gstyle children) = .ok []) := by
  constructor
  · intro r t hA
    cases hf : firstFailure r t with
    | none =>
      exfalso
      obtain ⟨n, hn, hfail⟩ := List.any_eq_true.1 hA
      have hnone := (findSome?_eq_none_iff _ _).1 hf n hn
      cases houtcome : resolveVariable r n <;> simp_all [ResolveOutcome.isFailed]
    | some p =>
      obtain ⟨n, e⟩ := p
      refine ⟨n, e, by simp [render, hf], ?_⟩
      obtain ⟨n', hn', hfn'⟩ := exists_of_findSome?_eq_some hf
      cases houtcome : resolveVariable r n' <;> simp_all
  · intro r gstyle children hA
    simp [renderNode, hA]

/-- Witness for C3: a value resolver reporting `Err "oops"` for `version`
nested inside a group aborts the whole render with `resolverFailed`, while a
group containing only the absent variable `missing` renders to no segments
with no error. -/
theorem claim_C3_witness :
    ((collectVarsList [FormatNode.group none [FormatNode.variableRef "version"]]).any
        (fun n => (resolveVariable failingResolvers n).isFailed) = true)
    ∧ (∃ n e, render failingResolvers [FormatNode.group none [FormatNode.variableRef "version"]] =
          .error (.resolverFailed n e) ∧ resolveVariable failingResolvers n = .failed e)
    ∧ renderNode failingResolvers none (.group none [FormatNode.variableRef "missing"]) = .ok [] :=
  ⟨rfl,
    claim_C3.1 failingResolvers [FormatNode.group none [FormatNode.variableRef "version"]] rfl,
    claim_C3.2 failingResolvers none [FormatNode.variableRef "missing"] rfl⟩

/-- C4: for each of the three detector modules, every error returned by
template construction or rendering makes `module()` return `None` — the
failing detector contributes no segments and the error is never propagated.
(The accompanying `log::warn!` is a side effect outside this embedding.) -/
theorem claim_C4 :
    (∀ (listing : Option (List DirEntry)) (config : LuaConfig)
       (luaExec : Option CommandOutput) (e : FormatError),
       formatAndRender config.format (luaResolvers config luaExec) = .error e →
       luaModuleSegments listing config luaExec = none)
    ∧ (∀ (listing : Option (List DirEntry)) (config : CrystalConfig)
       (crystalExec : Option CommandOutput) (e : FormatError),
       formatAndRender config.format (crystalResolvers config crystalExec) = .error e →
       crystalModuleSegments listing config crystalExec = none)
    ∧ (∀ (config : ShellConfig) (shell : Shell) (e : FormatError),
       formatAndRender config.format (shellResolvers config shell) = .error e →
       shellModuleSegments config shell = none) := by
  refine ⟨?_, ?_, ?_⟩
  · intro listing config luaExec e h
    unfold luaModuleSegments
    split
    · rw [h]
    · rfl
  · intro listing config crystalExec e h
    unfold crystalModuleSegments
    split
    · rw [h]
    · rfl
  · intro config shell e h
    unfold shellModuleSegments
    split
    · rfl
    · rw [h]

/-- Witness for C4: a lua format with an unmatched `(` is a construction
error and the module contributes nothing; a shell format referencing the
unclaimed variable `nope` is a rendering error and the module contributes
nothing. -/
theorem claim_C4_witness :
    formatAndRender luaBadFormatConfig.format (luaResolvers luaBadFormatConfig none) =
        .error (.parse .unbalancedDelimiter)
    ∧ luaModuleSegments (some []) luaBadFormatConfig none = none
    ∧ formatAndRender shellBadFormatConfig.format
        (shellResolvers shellBadFormatConfig .bash) =
        .error (.resolution (.unknownVariable "nope"))
    ∧ shellModuleSegments shellBadFormatConfig .bash = none :=
  ⟨rfl,
    claim_C4.1 (some []) luaBadFormatConfig none (.parse .unbalancedDelimiter) rfl,
    rfl,
    claim_C4.2.2 shellBadFormatConfig .bash (.resolution (.unknownVariable "nope")) rfl⟩

/-- C5: scan-criteria matching is an OR across the three categories — the lua
criteria match a directory listing exactly when it directly contains a file
named `.lua-version`, a folder named `lua`, or a file with extension `lua`;
the crystal criteria match exactly when it contains a file named `shard.yml`
or a file with extension `cr`; and when the criteria do not match, the
module contributes nothing. -/
theorem claim_C5 :
    (∀ entries : List DirEntry,
       isMatch luaCriteria (some entries) = true ↔
         (∃ e ∈ entries, e.kind = .file ∧ e.name = ".lua-version") ∨
         (∃ e ∈ entries, e.kind = .directory ∧ e.name = "lua") ∨
         (∃ e ∈ entries, e.kind = .file ∧ fileExtension e.name = some "lua"))
    ∧ (∀ entries : List DirEntry,
       isMatch crystalCriteria (some entries) = true ↔
         (∃ e ∈ entries, e.kind = .file ∧ e.name = "shard.yml") ∨
         (∃ e ∈ entries, e.kind = .file ∧ fileExtension e.name = some "cr"))
    ∧ (∀ (listing : Option (List DirEntry)) (config : LuaConfig)
         (luaExec : Option CommandOutput),
       isMatch luaCriteria listing = false →
       luaModuleSegments listing config luaExec = none)
    ∧ (∀ (listing : Option (List DirEntry)) (config : CrystalConfig)
         (crystalExec : Option CommandOutput),
       isMatch crystalCriteria listing = false →
       crystalModuleSegments listing config crystalExec = none) := by
  refine ⟨?_, ?_, ?_, ?_⟩
  · intro entries
    rw [isMatch, List.any_eq_true]
    constructor
    · rintro ⟨e, he, hm⟩
      obtain ⟨name, kind⟩ := e
      cases kind with
      | file =>
        simp only [entryMatches, luaCriteria] at hm
        rw [Bool.or_eq_true] at hm
        rcases hm with hm | hm
        · exact Or.inl ⟨⟨name, .file⟩, he, rfl, by simpa using hm⟩
        · refine Or.inr (Or.inr ⟨⟨name, .file⟩, he, rfl, ?_⟩)
          cases hfe : fileExtension name <;> simp_all
      | directory =>
        simp only [entryMatches, luaCriteria] at hm
        exact Or.inr (Or.inl ⟨⟨name, .directory⟩, he, rfl, by simpa using hm⟩)
    · rintro (⟨e, he, hk, hn⟩ | ⟨e, he, hk, hn⟩ | ⟨e, he, hk, hn⟩) <;>
        refine ⟨e, he, ?_⟩ <;> obtain ⟨name, kind⟩ := e <;>
        subst hk <;> simp_all [entryMatches, luaCriteria]
  · intro entries
    rw [isMatch, List.any_eq_true]
    constructor
    · rintro ⟨e, he, hm⟩
      obtain ⟨name, kind⟩ := e
      cases kind with
      | file =>
        simp only [entryMatches, crystalCriteria] at hm
        rw [Bool.or_eq_true] at hm
        rcases hm with hm | hm
        · exact Or.inl ⟨⟨name, .file⟩, he, rfl, by simpa using hm⟩
        · refine Or.inr ⟨⟨name, .file⟩, he, rfl, ?_⟩
          cases hfe : fileExtension name <;> simp_all
      | directory =>
        simp [entryMatches, crystalCriteria] at hm
    · rintro (⟨e, he, hk, hn⟩ | ⟨e, he, hk, hn⟩) <;>
        refine ⟨e, he, ?_⟩ <;> obtain ⟨name, kind⟩ := e <;>
        subst hk <;> simp_all [entryMatches, crystalCriteria]
  · intro listing config luaExec h
    simp [luaModuleSegments, h]
  · intro listing config crystalExec h
    simp [crystalModuleSegments, h]

/-- Witness for C5: an unreadable directory never matches, so the lua and
crystal modules contribute nothing there; and the iff parts evaluated on a
one-entry listing containing `main.lua`. -/
theorem claim_C5_witness :
    (isMatch luaCriteria (some [⟨"main.lua", .file⟩]) = true ↔
       (∃ e ∈ [(⟨"main.lua", .file⟩ : DirEntry)], e.kind = .file ∧ e.name = ".lua-version") ∨
       (∃ e ∈ [(⟨"main.lua", .file⟩ : DirEntry)], e.kind = .directory ∧ e.name = "lua") ∨
       (∃ e ∈ [(⟨"main.lua", .file⟩ : DirEntry)], e.kind = .file ∧
          fileExtension e.name = some "lua"))
    ∧ isMatch luaCriteria none = false
    ∧ luaModuleSegments none luaBadFormatConfig none = none
    ∧ crystalModuleSegments none ⟨"", "", {}⟩ none = none :=
  ⟨claim_C5.1 [⟨"main.lua", .file⟩],
    rfl,
    claim_C5.2.2.1 none luaBadFormatConfig none rfl,
    claim_C5.2.2.2 none ⟨"", "", {}⟩ none rfl⟩

/-- Counterexample for C6: with the template `"$symbol($version )"`, `symbol`
resolving to `"🌙 "`, `version` resolving to `Some(Ok "5.4.0")` (via the
actual `lua -v` banner) and the style variable resolving to a blue-bold
style, the render's concatenated text is `"🌙 5.4.0 "` — not `"🌙 v5.4.0 "`
as the claim states — and no segment carries a style: the template references
no style position, so the blue-bold style is never applied and no `v` prefix
appears. -/
theorem claim_C6_counterexample :
    formatAndRender luaTestConfig.format
        (luaResolvers luaTestConfig (some luaVersionOutput)) =
      .ok [⟨"🌙 ", none⟩, ⟨"5.4.0", none⟩, ⟨" ", none⟩]
    ∧ (luaResolvers luaTestConfig (some luaVersionOutput)).lookupValue "version" =
        some (.ok "5.4.0")
    ∧ (luaResolvers luaTestConfig (some luaVersionOutput)).lookupStyle "style" =
        some (.ok { fg := some .blue, bold := true })
    ∧ segmentsText [⟨"🌙 ", none⟩, ⟨"5.4.0", none⟩, ⟨" ", none⟩] = "🌙 5.4.0 "
    ∧ "🌙 5.4.0 " ≠ "🌙 v5.4.0 "
    ∧ (∀ s ∈ ([⟨"🌙 ", none⟩, ⟨"5.4.0", none⟩, ⟨" ", none⟩] : List Segment),
        s.style = none) := by
  refine ⟨rfl, rfl, rfl, rfl, by decide, by decide⟩

/-- C6 (amended): for the template `"$symbol($version )"` with `symbol`
resolving to `"🌙 "` and `version` resolving to `Some(Ok "5.4.0")`, render
produces the segment `"🌙 "` followed by the segments `"5.4.0"` and `" "` —
concatenated text `"🌙 5.4.0 "` — all unstyled: the symbol segment precedes
the version text, and the style variable is never consulted because the
template contains no style reference. -/
theorem claim_C6_amended :
    formatAndRender luaTestConfig.format
        (luaResolvers luaTestConfig (some luaVersionOutput)) =
      .ok [⟨"🌙 ", none⟩, ⟨"5.4.0", none⟩, ⟨" ", none⟩]
    ∧ segmentsText [⟨"🌙 ", none⟩, ⟨"5.4.0", none⟩, ⟨" ", none⟩] = "🌙 5.4.0 " :=
  ⟨rfl, rfl⟩

/-- C7: for every shell variant, the shell module's meta lookup for the name
`indicator` returns exactly the configured indicator of that variant, and
`Some` for every variant — the dispatch is an exhaustive match over the
closed `Shell` enum with no fallthrough case. -/
theorem claim_C7 :
    ∀ config : ShellConfig,
      shellMetaLookup config .bash "indicator" = some config.bash_indicator
      ∧ shellMetaLookup config .fish "indicator" = some config.fish_indicator
      ∧ shellMetaLookup config .zsh "indicator" = some config.zsh_indicator
      ∧ shellMetaLookup config .powershell "indicator" = some config.powershell_indicator
      ∧ shellMetaLookup config .ion "indicator" = some config.ion_indicator
      ∧ shellMetaLookup config .elvish "indicator" = some config.elvish_indicator
      ∧ shellMetaLookup config .tcsh "indicator" = some config.tcsh_indicator
      ∧ shellMetaLookup config .unknown "indicator" = some config.unknown_indicator
      ∧ ∀ shell : Shell, (shellMetaLookup config shell "indicator").isSome = true := by
  intro config
  refine ⟨rfl, rfl, rfl, rfl, rfl, rfl, rfl, rfl, ?_⟩
  intro shell
  cases shell <;> rfl

/-- C8: the indicator string `"[bash](bold cyan)"` parses as the literal
`"bash"` wrapped with the explicit style parsed from `"bold cyan"` (bold with
cyan foreground), and renders as that styled text; the parenthesized part is
a style descriptor exactly when it directly follows the closing bracket —
`"(bold cyan)"` alone is a conditional group around the literal, as is the
bracketed text when a space separates `]` from `(`. -/
theorem claim_C8 :
    parseTemplate "[bash](bold cyan)" =
      .ok [.group (some boldCyanStyle) [.literal "bash"]]
    ∧ parseStyle "bold cyan" = boldCyanStyle
    ∧ (∀ r : Resolvers,
        renderNodes r none [.group (some boldCyanStyle) [.literal "bash"]] =
          .ok [⟨"bash", some boldCyanStyle⟩])
    ∧ parseTemplate "(bold cyan)" = .ok [.group none [.literal "bold cyan"]]
    ∧ parseTemplate "[bash] (bold cyan)" =
        .ok [.group none [.literal "bash"], .literal " ",
             .group none [.literal "bold cyan"]] := by
  refine ⟨rfl, rfl, ?_, rfl, rfl⟩
  intro r
  rfl

/-- C9: `format_crystal_version` returns the second whitespace-separated
token of its input when the input has at least two tokens, and `None`
otherwise — in particular for the empty string and a single-token string;
`"Crystal 0.35.1 (2020-06-19)"` maps to `Some "0.35.1"`. -/
theorem claim_C9 :
    (∀ (s a b : String) (rest : List String),
       splitWhitespace s = a :: b :: rest → format_crystal_version s = some b)
    ∧ (∀ s : String,
       (splitWhitespace s).length < 2 → format_crystal_version s = none)
    ∧ format_crystal_version "Crystal 0.35.1 (2020-06-19)" = some "0.35.1"
    ∧ format_crystal_version "" = none
    ∧ format_crystal_version "Crystal" = none := by
  refine ⟨?_, ?_, rfl, rfl, rfl⟩
  · intro s a b rest h
    simp [format_crystal_version, h]
  · intro s h
    unfold format_crystal_version
    cases hs : splitWhitespace s with
    | nil => rfl
    | cons a tl =>
      cases tl with
      | nil => rfl
      | cons b tl' =>
        rw [hs] at h
        simp at h
        omega

/-- Witness for C9: `"a b"` splits into two tokens and maps to `Some "b"`;
`"Crystal"` splits into one token and maps to `None`. -/
theorem claim_C9_witness :
    splitWhitespace "a b" = ["a", "b"]
    ∧ format_crystal_version "a b" = some "b"
    ∧ (splitWhitespace "Crystal").length < 2
    ∧ format_crystal_version "Crystal" = none :=
  ⟨rfl, claim_C9.1 "a b" "a" "b" [] rfl, by decide,
    claim_C9.2.1 "Crystal" (by decide)⟩

/-- C10: when executing the lua binary succeeds, `get_lua_version` returns
`Some` of the command's stdout if the stdout is non-empty and `Some` of its
stderr otherwise; it returns `None` if and only if the execution itself
failed. -/
theorem claim_C10 :
    (∀ output : CommandOutput, output.stdout.isEmpty = false →
       get_lua_version (some output) = some output.stdout)
    ∧ (∀ output : CommandOutput, output.stdout.isEmpty = true →
       get_lua_version (some output) = some output.stderr)
    ∧ (∀ execResult : Option CommandOutput,
       get_lua_version execResult = none ↔ execResult = none) := by
  refine ⟨?_, ?_, ?_⟩
  · intro output h
    simp [get_lua_version, h]
  · intro output h
    simp [get_lua_version, h]
  · intro execResult
    cases execResult with
    | none => simp [get_lua_version]
    | some output =>
      simp only [get_lua_version]
      constructor
      · intro h
        split at h <;> simp_all
      · intro h
        simp at h

/-- Witness for C10: non-empty stdout wins; empty stdout falls back to
stderr; a failed execution gives `None`. -/
theorem claim_C10_witness :
    get_lua_version (some ⟨"out", "err"⟩) = some "out"
    ∧ get_lua_version (some ⟨"", "err"⟩) = some "err"
    ∧ get_lua_version none = none :=
  ⟨claim_C10.1 ⟨"out", "err"⟩ rfl, claim_C10.2.1 ⟨"", "err"⟩ rfl,
    (claim_C10.2.2 none).2 rfl⟩

end Starship
